import Mathlib

/-!
Shallow embedding of the runtime guardrail enforcement layer:
the anomaly-detection engine (deviation scoring, mitigation-policy
resolution, live behavior-vector derivation), the post-execution
auditing layer with its remediation trigger, and the guardrail
orchestrator (active-action bookkeeping, violation-event handling,
and the coordinate pipeline).

Scores and thresholds are modelled as rationals, JavaScript Maps as
association lists, thrown errors as Except, and event-bus emissions
as explicit event traces returned alongside the mutated state.
-/

namespace Enforcement

/-- Clamp a rational to the unit interval, as Math.max(0, Math.min(1, value)). -/
def normalize (x : ℚ) : ℚ := max 0 (min 1 x)

/-- The six-dimensional behavior risk vector. -/
structure BehaviorVector where
  intentDeviationRisk : ℚ
  scopeDriftRisk : ℚ
  apiNoveltyRisk : ℚ
  sensitiveDataExposureRisk : ℚ
  cooperativeInstabilityRisk : ℚ
  dataVolumeRisk : ℚ
deriving DecidableEq

/-- All six components of a behavior vector lie in the unit interval. -/
def InRange (v : BehaviorVector) : Prop :=
  0 ≤ v.intentDeviationRisk ∧ v.intentDeviationRisk ≤ 1 ∧
  0 ≤ v.scopeDriftRisk ∧ v.scopeDriftRisk ≤ 1 ∧
  0 ≤ v.apiNoveltyRisk ∧ v.apiNoveltyRisk ≤ 1 ∧
  0 ≤ v.sensitiveDataExposureRisk ∧ v.sensitiveDataExposureRisk ≤ 1 ∧
  0 ≤ v.cooperativeInstabilityRisk ∧ v.cooperativeInstabilityRisk ≤ 1 ∧
  0 ≤ v.dataVolumeRisk ∧ v.dataVolumeRisk ≤ 1

instance (v : BehaviorVector) : Decidable (InRange v) := by
  unfold InRange; infer_instance

/-- The five mitigation actions of the anomaly detection engine. -/
inductive AnomalyMitigationAction where
  | NONE
  | WARN
  | SLOW
  | REQUIRE_APPROVAL
  | HALT
deriving DecidableEq

/-- The four ordered anomaly tolerance thresholds. -/
structure AnomalyToleranceThresholds where
  warn : ℚ
  slow : ℚ
  requireApproval : ℚ
  halt : ℚ
deriving DecidableEq

/-- The constructor defaults: warn 0.25, slow 0.4, requireApproval 0.6, halt 0.8. -/
def defaultThresholds : AnomalyToleranceThresholds :=
  { warn := 1/4, slow := 2/5, requireApproval := 3/5, halt := 4/5 }

/-- AnomalyDetectionEngine.resolveAction: checks thresholds from highest to
lowest with inclusive comparison and reports the crossed threshold. -/
def resolveAction (score : ℚ) (th : AnomalyToleranceThresholds) :
    AnomalyMitigationAction × Option ℚ :=
  if score ≥ th.halt then (AnomalyMitigationAction.HALT, some th.halt)
  else if score ≥ th.requireApproval then
    (AnomalyMitigationAction.REQUIRE_APPROVAL, some th.requireApproval)
  else if score ≥ th.slow then (AnomalyMitigationAction.SLOW, some th.slow)
  else if score ≥ th.warn then (AnomalyMitigationAction.WARN, some th.warn)
  else (AnomalyMitigationAction.NONE, none)

/-- AnomalyDetectionEngine.computeDeviationScore: the clamped mean of the six
absolute per-dimension differences. -/
def computeDeviationScore (predicted live : BehaviorVector) : ℚ :=
  let deltas : List ℚ :=
    [|predicted.intentDeviationRisk - live.intentDeviationRisk|,
     |predicted.scopeDriftRisk - live.scopeDriftRisk|,
     |predicted.apiNoveltyRisk - live.apiNoveltyRisk|,
     |predicted.sensitiveDataExposureRisk - live.sensitiveDataExposureRisk|,
     |predicted.cooperativeInstabilityRisk - live.cooperativeInstabilityRisk|,
     |predicted.dataVolumeRisk - live.dataVolumeRisk|]
  let meanDelta := deltas.sum / (deltas.length : ℚ)
  max 0 (min 1 meanDelta)

/-- Lowercasing of a string, character by character, as String.toLowerCase. -/
def toLowerCase (s : String) : String := ⟨s.data.map Char.toLower⟩

/-- Auxiliary splitter over the character list, accumulating the current token. -/
def splitWsAux : List Char → List Char → List String
  | [], acc => [⟨acc.reverse⟩]
  | c :: rest, acc =>
    if c.isWhitespace then (⟨acc.reverse⟩ : String) :: splitWsAux rest []
    else splitWsAux rest (c :: acc)

/-- Split a string at whitespace characters, as the regular expression split
used by the source; empty fragments are produced between consecutive
whitespace characters and are discarded by the length filter below. -/
def splitWs (s : String) : List String := splitWsAux s.data []

/-- The distinct tokens of length greater than 3, as the Set construction in
AnomalyDetectionEngine.intentSimilarity. -/
def tokensOf (s : String) : List String :=
  ((splitWs s).filter fun t => t.length > 3).dedup

/-- AnomalyDetectionEngine.intentSimilarity: the number of distinct observed
tokens of length greater than 3 also among the declared tokens, divided by
the number of distinct declared tokens of length greater than 3; zero when
either token set is empty. -/
def intentSimilarity (observed declared : String) : ℚ :=
  let observedTokens := tokensOf observed
  let declaredTokens := tokensOf declared
  if observedTokens.length = 0 ∨ declaredTokens.length = 0 then 0
  else
    ((observedTokens.filter fun t => decide (t ∈ declaredTokens)).length : ℚ) /
      (declaredTokens.length : ℚ)

/-- Boolean test that the first list is an initial segment of the second. -/
def hasPrefixChars : List Char → List Char → Bool
  | [], _ => true
  | _ :: _, [] => false
  | a :: as, b :: bs => a == b && hasPrefixChars as bs

/-- Boolean substring containment, as String.includes. -/
def strIncludes (hay needle : List Char) : Bool :=
  match hay with
  | [] => hasPrefixChars needle []
  | _ :: t => hasPrefixChars needle hay || strIncludes t needle

/-- The fixed high-impact verb list of deriveLiveBehaviorVector. -/
def highImpactIntentWords : List String :=
  ["delete", "drop", "exfiltrate", "disable", "override", "shutdown"]

/-- Severity levels of a violation, LOW below MEDIUM below HIGH below CRITICAL. -/
inductive ViolationSeverity where
  | LOW
  | MEDIUM
  | HIGH
  | CRITICAL
deriving DecidableEq

/-- Categories of a violation; COMPLIANCE is the one used by the audit layer. -/
inductive ViolationCategory where
  | COMPLIANCE
  | OTHER
deriving DecidableEq

/-- A violation record; metadata carries the invalid-result flag copied by the
post-execution auditor. -/
structure Violation where
  id : String
  timestamp : ℕ
  category : ViolationCategory
  severity : ViolationSeverity
  description : String
  sourceLayer : String
  metadata : Option Bool := none
deriving DecidableEq

/-- An applied intervention record. -/
structure Intervention where
  action : AnomalyMitigationAction
  score : ℚ
  threshold : Option ℚ
  timestamp : ℕ
deriving DecidableEq

/-- The remediation report: an ordered sequence of rollback transaction
records, here kept opaque. -/
structure RemediationReport where
  rollbackTransactions : List String
deriving DecidableEq

/-- The opaque key/value params payload, restricted to the typed fields the
core consumes; an isSome field models the corresponding isArray or typeof
check succeeding, and invalidResult models the truthiness of that key. -/
structure Params where
  systemChanges : Option (List String) := none
  stakeholders : Option (List String) := none
  trustCoefficient : Option ℚ := none
  invalidResult : Bool := false
deriving DecidableEq

/-- The per-action enforcement state machine states. -/
inductive EnforcementState where
  | PENDING
  | PRE_EXECUTION_FAILED
  | SUSPENDED
  | COMPLETED
  | AUDIT_PASSED
  | AUDIT_FAILED
deriving DecidableEq

/-- The per-action context owned by the orchestrator. -/
structure ActionContext where
  actionId : String
  agentId : String
  intent : String
  params : Params
  startTime : Option ℕ
  endTime : Option ℕ
  status : EnforcementState
  violations : List Violation
  interventions : List Intervention
  systemChanges : Option (List String)
  stakeholders : Option (List String)
  trustCoefficient : ℚ
  predictedBehaviorVector : Option BehaviorVector
  remediationReport : Option RemediationReport
deriving DecidableEq

/-- One observed data access of an execution step. -/
inductive DataOperation where
  | read
  | write
deriving DecidableEq

/-- Sensitivity levels of a data access. -/
inductive Sensitivity where
  | low
  | medium
  | high
deriving DecidableEq

/-- A data access record of an execution step. -/
structure DataAccess where
  operation : DataOperation
  recordCount : ℕ
  sensitivity : Sensitivity
deriving DecidableEq

/-- A cooperative signal of an execution step; conflictScore is optional. -/
structure CooperativeSignal where
  stabilityScore : ℚ
  conflictScore : Option ℚ := none
deriving DecidableEq

/-- One observed increment of in-process behavior. -/
structure ExecutionStep where
  observedIntent : String
  authorityScopeUsed : List String
  apiCalls : List String
  dataAccess : List DataAccess
  cooperativeSignals : List CooperativeSignal
deriving DecidableEq

/-- Per-action in-process monitoring configuration. -/
structure InProcessMonitorPolicy where
  declaredAuthorityScope : List String
  allowedApis : List String
  maxRecordsPerStep : ℕ
  minCooperativeStability : ℚ
  maxCooperativeConflict : ℚ
deriving DecidableEq

/-- Total record count over the read accesses of a step. -/
def stepReads (step : ExecutionStep) : ℕ :=
  (((step.dataAccess.filter fun access =>
      decide (access.operation = DataOperation.read)).map
        fun access => access.recordCount)).sum

/-- Total record count over the read accesses of medium or high sensitivity. -/
def stepSensitiveReads (step : ExecutionStep) : ℕ :=
  (((step.dataAccess.filter fun access =>
      decide (access.operation = DataOperation.read) &&
        (decide (access.sensitivity = Sensitivity.medium) ||
         decide (access.sensitivity = Sensitivity.high))).map
        fun access => access.recordCount)).sum

/-- The conflict-excess summand of a cooperative signal: the source guards
with the truthiness of the optional conflictScore, so an absent or zero
conflict score contributes nothing. -/
def conflictExcess (maxConflict : ℚ) (conflictScore : Option ℚ) : ℚ :=
  match conflictScore with
  | none => 0
  | some c => if c ≠ 0 ∧ c > maxConflict then c - maxConflict else 0

/-- AnomalyDetectionEngine.deriveLiveBehaviorVector: derives the live behavior
vector of a step under a policy, with the declared intent read off the
context. -/
def deriveLiveBehaviorVector (context : ActionContext) (step : ExecutionStep)
    (policy : InProcessMonitorPolicy) : BehaviorVector :=
  let observedIntent := toLowerCase step.observedIntent
  let declaredIntent := toLowerCase context.intent
  let intentDeviationRisk : ℚ :=
    if observedIntent = "" then 0
    else if intentSimilarity observedIntent declaredIntent ≥ 1/4 then 0
    else if highImpactIntentWords.any
        (fun word => strIncludes observedIntent.data word.data) then 1
    else 13/20
  let usedScopes := step.authorityScopeUsed
  let unauthorizedScopes :=
    usedScopes.filter fun scope => !(policy.declaredAuthorityScope.contains scope)
  let scopeDriftRisk : ℚ :=
    if usedScopes.length = 0 then 0
    else normalize ((unauthorizedScopes.length : ℚ) / (usedScopes.length : ℚ))
  let usedApis := step.apiCalls
  let unexpectedApis := usedApis.filter fun api => !(policy.allowedApis.contains api)
  let apiNoveltyRisk : ℚ :=
    if usedApis.length = 0 then 0
    else normalize ((unexpectedApis.length : ℚ) / (usedApis.length : ℚ))
  let sensitiveDataExposureRisk : ℚ :=
    if stepReads step = 0 then 0
    else normalize ((stepSensitiveReads step : ℚ) / (stepReads step : ℚ))
  let dataVolumeRisk : ℚ :=
    normalize ((stepReads step : ℚ) / ((max 1 policy.maxRecordsPerStep : ℕ) : ℚ))
  let cooperativeInstabilityRisk : ℚ :=
    if step.cooperativeSignals.length = 0 then 0
    else
      let instabilityValues := step.cooperativeSignals.map fun signal =>
        normalize
          ((if signal.stabilityScore < policy.minCooperativeStability then
              policy.minCooperativeStability - signal.stabilityScore
            else 0) +
           conflictExcess policy.maxCooperativeConflict signal.conflictScore)
      normalize (instabilityValues.sum / (instabilityValues.length : ℚ))
  { intentDeviationRisk := normalize intentDeviationRisk
    scopeDriftRisk := scopeDriftRisk
    apiNoveltyRisk := apiNoveltyRisk
    sensitiveDataExposureRisk := sensitiveDataExposureRisk
    cooperativeInstabilityRisk := cooperativeInstabilityRisk
    dataVolumeRisk := dataVolumeRisk }

/-- AnomalyDetectionEngine.defaultPredictedVector. -/
def defaultPredictedVector : BehaviorVector :=
  { intentDeviationRisk := 3/20
    scopeDriftRisk := 3/20
    apiNoveltyRisk := 3/20
    sensitiveDataExposureRisk := 1/5
    cooperativeInstabilityRisk := 3/20
    dataVolumeRisk := 1/4 }

/-- The decision record returned by AnomalyDetectionEngine.evaluate. -/
structure AnomalyDetectionDecision where
  deviationScore : ℚ
  action : AnomalyMitigationAction
  predicted : BehaviorVector
  live : BehaviorVector
  threshold : Option ℚ
deriving DecidableEq

/-- AnomalyDetectionEngine.evaluate: one pure per-step evaluation. -/
def evaluate (thresholds : AnomalyToleranceThresholds) (context : ActionContext)
    (step : ExecutionStep) (policy : InProcessMonitorPolicy) :
    AnomalyDetectionDecision :=
  let predicted := context.predictedBehaviorVector.getD defaultPredictedVector
  let live := deriveLiveBehaviorVector context step policy
  let deviationScore := computeDeviationScore predicted live
  let r := resolveAction deviationScore thresholds
  { deviationScore := deviationScore
    action := r.1
    predicted := predicted
    live := live
    threshold := r.2 }

/-- The events published on the enforcement event bus, with their payloads. -/
inductive BusEvent where
  | actionProposed (context : ActionContext)
  | actionCompleted (context : ActionContext)
  | violationDetected (actionId : String) (violation : Violation)
  | remediationTriggered (context : ActionContext)
  | remediationCompleted (context : ActionContext)
  | auditStarted (context : ActionContext)
  | auditCompleted (context : ActionContext)
deriving DecidableEq

/-- Modelled from the spec: the Remediation Engine collaborator is not under
src; the spec states remediate(context) produces a RemediationReport whose
rollbackTransactions become available on the context once the call returns.
The report content is left abstract as a parameter; remediate attaches it. -/
def remediate (report : RemediationReport) (context : ActionContext) :
    ActionContext :=
  { context with remediationReport := some report }

/-- PostExecutionLayer.triggerRemediation: publishes remediation triggered,
invokes the remediation engine, then publishes remediation completed. -/
def triggerRemediation (report : RemediationReport) (context : ActionContext) :
    ActionContext × List BusEvent :=
  let context' := remediate report context
  (context',
    [BusEvent.remediationTriggered context, BusEvent.remediationCompleted context'])

/-- PostExecutionLayer.process: audits the context, synthesizing a CRITICAL
COMPLIANCE violation and triggering remediation on failure. The wall clock
reading used for the synthesized violation id and timestamp is a parameter. -/
def PostExecutionLayer.process (now : ℕ) (report : RemediationReport)
    (context : ActionContext) : ActionContext × List BusEvent :=
  let hasCriticalViolation :=
    context.violations.any fun v => decide (v.severity = ViolationSeverity.CRITICAL)
  if hasCriticalViolation || context.params.invalidResult then
    let violation : Violation :=
      { id := "v-post-" ++ toString now
        timestamp := now
        category := ViolationCategory.COMPLIANCE
        severity := ViolationSeverity.CRITICAL
        description := "Final result fails compliance audit."
        sourceLayer := "PostExecutionAuditing"
        metadata := some context.params.invalidResult }
    let context1 := { context with
      violations := context.violations ++ [violation]
      status := EnforcementState.AUDIT_FAILED }
    let r := triggerRemediation report context1
    (r.1,
      BusEvent.auditStarted context
        :: BusEvent.violationDetected context.actionId violation
        :: r.2 ++ [BusEvent.auditCompleted r.1])
  else
    let context1 := { context with status := EnforcementState.AUDIT_PASSED }
    (context1, [BusEvent.auditStarted context, BusEvent.auditCompleted context1])

/-- Lookup in the active-action map, as Map.get. -/
def mapGet (m : List (String × ActionContext)) (k : String) :
    Option ActionContext :=
  (m.find? fun p => decide (p.1 = k)).map Prod.snd

/-- Insertion into the active-action map, as Map.set: replaces the value in
place when the key is present, appends otherwise. -/
def mapSet (m : List (String × ActionContext)) (k : String) (v : ActionContext) :
    List (String × ActionContext) :=
  if m.any fun p => decide (p.1 = k) then
    m.map fun p => if p.1 = k then (k, v) else p
  else m ++ [(k, v)]

/-- Removal from the active-action map, as Map.delete. -/
def mapDelete (m : List (String × ActionContext)) (k : String) :
    List (String × ActionContext) :=
  m.filter fun p => decide (p.1 ≠ k)

/-- The action id derived from the wall clock, as the template act-Date.now(). -/
def mkActionId (now : ℕ) : String := "act-" ++ toString now

/-- The fresh context allocated at the top of coordinate. -/
def initialContext (now : ℕ) (agentId intent : String) (params : Params) :
    ActionContext :=
  { actionId := mkActionId now
    agentId := agentId
    intent := intent
    params := params
    startTime := some now
    endTime := none
    status := EnforcementState.PENDING
    violations := []
    interventions := []
    systemChanges := params.systemChanges
    stakeholders := params.stakeholders
    trustCoefficient := params.trustCoefficient.getD 1
    predictedBehaviorVector := none
    remediationReport := none }

/-- The three stage collaborators of the orchestrator, each able to throw. -/
structure StageBehaviors (ε : Type) where
  pre : ActionContext → Except ε ActionContext
  inProcess : ActionContext → Except ε ActionContext
  post : ActionContext → Except ε ActionContext

/-- GuardrailOrchestrator.coordinate: allocates and registers a context,
drives the three stages with the early-exit paths of the source, and, as the
finally block, removes the action id from the active map on every exit path.
Returns the result (or thrown error), the final active map, and the events
the orchestrator itself emitted. -/
def coordinate {ε : Type} (stages : StageBehaviors ε) (now endNow : ℕ)
    (agentId intent : String) (params : Params)
    (active : List (String × ActionContext)) :
    Except ε ActionContext × List (String × ActionContext) × List BusEvent :=
  let actionId := mkActionId now
  let context0 := initialContext now agentId intent params
  let active1 := mapSet active actionId context0
  let body : Except ε ActionContext × List BusEvent :=
    match stages.pre context0 with
    | Except.error e => (Except.error e, [])
    | Except.ok c1 =>
      if c1.status = EnforcementState.PRE_EXECUTION_FAILED then (Except.ok c1, [])
      else
        match stages.inProcess c1 with
        | Except.error e => (Except.error e, [])
        | Except.ok c2 =>
          if c2.status = EnforcementState.SUSPENDED then
            (Except.ok { c2 with endTime := some endNow }, [])
          else
            let c3 := { c2 with
              endTime := some endNow
              status := EnforcementState.COMPLETED }
            match stages.post c3 with
            | Except.error e => (Except.error e, [BusEvent.actionCompleted c3])
            | Except.ok c4 => (Except.ok c4, [BusEvent.actionCompleted c3])
  (body.1, mapDelete active1 actionId, BusEvent.actionProposed context0 :: body.2)

/-- The violation-detected handler of the orchestrator: looks up the active
context, appends the violation when no violation with that id is present,
and invokes the adaptive intervention layer (abstract, since its source is
not under src) on the context. Returns the updated active map and the list
of contexts the intervention layer was invoked on. -/
def handleViolationDetected (interventionProcess : ActionContext → ActionContext)
    (active : List (String × ActionContext)) (actionId : String)
    (violation : Violation) :
    List (String × ActionContext) × List ActionContext :=
  match mapGet active actionId with
  | none => (active, [])
  | some context =>
    let context1 :=
      if context.violations.any fun v => decide (v.id = violation.id) then context
      else { context with violations := context.violations ++ [violation] }
    let context2 := interventionProcess context1
    (mapSet active actionId context2, [context1])

/-- The audit-failure condition of the post-execution layer, as a
proposition: a CRITICAL violation already present or the invalid-result
signal set in params. -/
def AuditFailCondition (context : ActionContext) : Prop :=
  (∃ v ∈ context.violations, v.severity = ViolationSeverity.CRITICAL) ∨
    context.params.invalidResult = true

instance (context : ActionContext) : Decidable (AuditFailCondition context) := by
  unfold AuditFailCondition; infer_instance

/-- The token-overlap similarity as the specification words it: the count of
distinct declared tokens longer than 3 characters also present among the
distinct observed tokens longer than 3 characters, divided by the count of
distinct declared tokens; zero when either token set is empty. -/
def intentSimilaritySpec (observed declared : String) : ℚ :=
  let observedTokens := tokensOf observed
  let declaredTokens := tokensOf declared
  if observedTokens = [] ∨ declaredTokens = [] then 0
  else
    ((declaredTokens.filter fun t => decide (t ∈ observedTokens)).length : ℚ) /
      (declaredTokens.length : ℚ)

/-- The intent-deviation risk as the specification words it: zero on an empty
observed intent, zero when the case-insensitive token-overlap similarity
reaches one quarter, one when a high-impact verb occurs as a substring of
the observed intent, and 0.65 otherwise. -/
def intentDeviationRiskSpec (observed declared : String) : ℚ :=
  if observed = "" then 0
  else if intentSimilaritySpec (toLowerCase observed) (toLowerCase declared) ≥ 1/4
    then 0
  else if highImpactIntentWords.any
      (fun word => strIncludes (toLowerCase observed).data word.data) then 1
  else 13/20

/-- The cooperative-instability risk as the specification words it: zero
without signals, else the mean over the signals of the clamped sum of the
stability deficit and the conflict excess, the conflict score read as zero
when absent. -/
def cooperativeInstabilityRiskSpec (step : ExecutionStep)
    (policy : InProcessMonitorPolicy) : ℚ :=
  if step.cooperativeSignals.length = 0 then 0
  else
    ((step.cooperativeSignals.map fun signal =>
        normalize
          (max 0 (policy.minCooperativeStability - signal.stabilityScore) +
           max 0 (signal.conflictScore.getD 0 - policy.maxCooperativeConflict))).sum) /
      ((step.cooperativeSignals.length : ℕ) : ℚ)

/-! ## Sample data used by witnesses and counterexamples -/

/-- An empty params payload. -/
def sampleParams : Params := {}

/-- A sample context as allocated by coordinate at wall-clock reading 0. -/
def sampleContext : ActionContext :=
  initialContext 0 "agent-a" "generate report" sampleParams

/-- A step whose only content is one cooperative signal with a present but
zero conflict score. -/
def stepCoop : ExecutionStep :=
  { observedIntent := ""
    authorityScopeUsed := []
    apiCalls := []
    dataAccess := []
    cooperativeSignals := [{ stabilityScore := 1, conflictScore := some 0 }] }

/-- A policy with a negative conflict cap. -/
def polCoop : InProcessMonitorPolicy :=
  { declaredAuthorityScope := []
    allowedApis := []
    maxRecordsPerStep := 10
    minCooperativeStability := 0
    maxCooperativeConflict := -(1/2) }

/-- A policy with a nonnegative conflict cap and a demanding stability floor. -/
def polCoopOk : InProcessMonitorPolicy :=
  { declaredAuthorityScope := []
    allowedApis := []
    maxRecordsPerStep := 10
    minCooperativeStability := 1
    maxCooperativeConflict := 0 }

/-- A step with no inputs at all. -/
def stepEmpty : ExecutionStep :=
  { observedIntent := ""
    authorityScopeUsed := []
    apiCalls := []
    dataAccess := []
    cooperativeSignals := [] }

/-- An empty remediation report. -/
def sampleReport : RemediationReport := { rollbackTransactions := [] }

/-- A params payload carrying the invalid-result signal. -/
def failingParams : Params := { invalidResult := true }

/-- A context whose params carry the invalid-result signal. -/
def failingContext : ActionContext :=
  initialContext 0 "agent-a" "generate report" failingParams

/-- A low-severity violation used to exercise the violation handler. -/
def vLow : Violation :=
  { id := "v-1"
    timestamp := 1
    category := ViolationCategory.OTHER
    severity := ViolationSeverity.LOW
    description := "scope exceeded"
    sourceLayer := "PreExecutionValidation" }

/-- Stage behaviors that pass the context through unchanged. -/
def idStages : StageBehaviors Unit :=
  { pre := Except.ok, inProcess := Except.ok, post := Except.ok }

/-- Stage behaviors whose pre-execution stage fails the context and whose
other stages pass it through. -/
def preFailStages : StageBehaviors Unit :=
  { pre := fun c => Except.ok { c with status := EnforcementState.PRE_EXECUTION_FAILED }
    inProcess := Except.ok
    post := Except.ok }

/-! ## Helper lemmas -/

theorem normalize_nonneg (x : ℚ) : 0 ≤ normalize x := le_max_left 0 (min 1 x)

theorem normalize_le_one (x : ℚ) : normalize x ≤ 1 :=
  max_le zero_le_one (min_le_left 1 x)

theorem normalize_eq_self {x : ℚ} (h0 : 0 ≤ x) (h1 : x ≤ 1) : normalize x = x := by
  unfold normalize
  rw [min_eq_right h1, max_eq_right h0]

theorem mean_nonneg_of_unit {l : List ℚ} (h : ∀ x ∈ l, 0 ≤ x ∧ x ≤ 1) :
    0 ≤ l.sum / (l.length : ℚ) :=
  div_nonneg (List.sum_nonneg fun x hx => (h x hx).1) (Nat.cast_nonneg _)

theorem mean_le_one_of_unit {l : List ℚ} (hne : l ≠ []) (h : ∀ x ∈ l, 0 ≤ x ∧ x ≤ 1) :
    l.sum / (l.length : ℚ) ≤ 1 := by
  have hlen : 0 < (l.length : ℚ) := by
    exact_mod_cast List.length_pos.mpr hne
  rw [div_le_one hlen]
  have := List.sum_le_card_nsmul l 1 fun x hx => (h x hx).2
  simpa using this

theorem toLowerCase_eq_empty_iff (s : String) : toLowerCase s = "" ↔ s = "" := by
  cases s with
  | mk data =>
    show (⟨data.map Char.toLower⟩ : String) = ⟨[]⟩ ↔ (⟨data⟩ : String) = ⟨[]⟩
    constructor
    · intro h
      have hd : data.map Char.toLower = [] := congrArg String.data h
      have hnil : data = [] := List.map_eq_nil_iff.mp hd
      subst hnil
      rfl
    · intro h
      have hd : data = [] := congrArg String.data h
      subst hd
      rfl

theorem length_filter_mem_comm {α : Type} [DecidableEq α] {l1 l2 : List α}
    (h1 : l1.Nodup) (h2 : l2.Nodup) :
    (l1.filter fun a => decide (a ∈ l2)).length =
      (l2.filter fun a => decide (a ∈ l1)).length := by
  have e1 : (l1.filter fun a => decide (a ∈ l2)).toFinset = l1.toFinset ∩ l2.toFinset := by
    rw [List.toFinset_filter]
    ext a
    simp [Finset.mem_filter, Finset.mem_inter, List.mem_toFinset]
  have e2 : (l2.filter fun a => decide (a ∈ l1)).toFinset = l2.toFinset ∩ l1.toFinset := by
    rw [List.toFinset_filter]
    ext a
    simp [Finset.mem_filter, Finset.mem_inter, List.mem_toFinset]
  have c1 := List.toFinset_card_of_nodup (h1.filter fun a => decide (a ∈ l2))
  have c2 := List.toFinset_card_of_nodup (h2.filter fun a => decide (a ∈ l1))
  rw [← c1, ← c2, e1, e2, Finset.inter_comm]

/-! ## Claim theorems -/

/-- C1: for behavior vectors with all six components in the unit interval, the
deviation score equals the plain mean of the six absolute per-dimension
differences (the clamp is the identity there); the score lies in the unit
interval, and on a pair of identical vectors it is zero. -/
theorem deviation_score_mean_bounds_and_zero_on_equal
    (predicted live v : BehaviorVector)
    (hp : InRange predicted) (hl : InRange live) :
    computeDeviationScore predicted live =
      (|predicted.intentDeviationRisk - live.intentDeviationRisk| +
       |predicted.scopeDriftRisk - live.scopeDriftRisk| +
       |predicted.apiNoveltyRisk - live.apiNoveltyRisk| +
       |predicted.sensitiveDataExposureRisk - live.sensitiveDataExposureRisk| +
       |predicted.cooperativeInstabilityRisk - live.cooperativeInstabilityRisk| +
       |predicted.dataVolumeRisk - live.dataVolumeRisk|) / 6 ∧
    0 ≤ computeDeviationScore predicted live ∧
    computeDeviationScore predicted live ≤ 1 ∧
    computeDeviationScore v v = 0 := by
  obtain ⟨p1a, p1b, p2a, p2b, p3a, p3b, p4a, p4b, p5a, p5b, p6a, p6b⟩ := hp
  obtain ⟨l1a, l1b, l2a, l2b, l3a, l3b, l4a, l4b, l5a, l5b, l6a, l6b⟩ := hl
  refine ⟨?_, ?_, ?_, ?_⟩
  · have habs : ∀ a b : ℚ, 0 ≤ a → a ≤ 1 → 0 ≤ b → b ≤ 1 → |a - b| ≤ 1 := by
      intro a b ha0 ha1 hb0 hb1
      rw [abs_sub_le_iff]
      constructor <;> linarith
    have h1 := habs _ _ p1a p1b l1a l1b
    have h2 := habs _ _ p2a p2b l2a l2b
    have h3 := habs _ _ p3a p3b l3a l3b
    have h4 := habs _ _ p4a p4b l4a l4b
    have h5 := habs _ _ p5a p5b l5a l5b
    have h6 := habs _ _ p6a p6b l6a l6b
    have n1 := abs_nonneg (predicted.intentDeviationRisk - live.intentDeviationRisk)
    have n2 := abs_nonneg (predicted.scopeDriftRisk - live.scopeDriftRisk)
    have n3 := abs_nonneg (predicted.apiNoveltyRisk - live.apiNoveltyRisk)
    have n4 := abs_nonneg
      (predicted.sensitiveDataExposureRisk - live.sensitiveDataExposureRisk)
    have n5 := abs_nonneg
      (predicted.cooperativeInstabilityRisk - live.cooperativeInstabilityRisk)
    have n6 := abs_nonneg (predicted.dataVolumeRisk - live.dataVolumeRisk)
    simp only [computeDeviationScore, List.sum_cons, List.sum_nil, List.length_cons,
      List.length_nil, add_zero]
    norm_num
    rw [min_eq_right (by linarith), max_eq_right (by linarith)]
    ring
  · exact normalize_nonneg _
  · exact normalize_le_one _
  · simp only [computeDeviationScore, sub_self, abs_zero, List.sum_cons,
      List.sum_nil, add_zero, List.length_cons, List.length_nil]
    norm_num

/-- C1 witness: the hypotheses hold at the default predicted vector against a
concrete live vector, and the theorem applies there. -/
theorem deviation_score_mean_bounds_and_zero_on_equal_witness :
    InRange defaultPredictedVector ∧
    computeDeviationScore defaultPredictedVector defaultPredictedVector = 0 := by
  have hr : InRange defaultPredictedVector := by
    unfold InRange defaultPredictedVector
    norm_num
  exact ⟨hr,
    (deviation_score_mean_bounds_and_zero_on_equal defaultPredictedVector
      defaultPredictedVector defaultPredictedVector hr hr).2.2.2⟩

/-- C2: resolveAction checks thresholds from highest to lowest with inclusive
comparison, returns the matched tier together with its threshold value, and
NONE carries no threshold value. -/
theorem resolve_action_tiers (score : ℚ) (th : AnomalyToleranceThresholds) :
    (score ≥ th.halt →
      resolveAction score th = (AnomalyMitigationAction.HALT, some th.halt)) ∧
    (score < th.halt → score ≥ th.requireApproval →
      resolveAction score th =
        (AnomalyMitigationAction.REQUIRE_APPROVAL, some th.requireApproval)) ∧
    (score < th.halt → score < th.requireApproval → score ≥ th.slow →
      resolveAction score th = (AnomalyMitigationAction.SLOW, some th.slow)) ∧
    (score < th.halt → score < th.requireApproval → score < th.slow →
      score ≥ th.warn →
      resolveAction score th = (AnomalyMitigationAction.WARN, some th.warn)) ∧
    (score < th.halt → score < th.requireApproval → score < th.slow →
      score < th.warn →
      resolveAction score th = (AnomalyMitigationAction.NONE, none)) := by
  refine ⟨?_, ?_, ?_, ?_, ?_⟩ <;> intros <;>
    simp only [resolveAction] <;>
    simp [*, not_le.mpr, if_pos, if_neg, not_le_of_lt]

/-- C2 witness: at the default thresholds, a score exactly equal to the halt
threshold resolves to HALT carrying that threshold. -/
theorem resolve_action_tiers_witness :
    (4/5 : ℚ) ≥ defaultThresholds.halt ∧
    resolveAction (4/5) defaultThresholds =
      (AnomalyMitigationAction.HALT, some defaultThresholds.halt) := by
  have h : (4/5 : ℚ) ≥ defaultThresholds.halt := by
    unfold defaultThresholds
    norm_num
  exact ⟨h, (resolve_action_tiers (4/5) defaultThresholds).1 h⟩

theorem tokensOf_nodup (s : String) : (tokensOf s).Nodup := by
  unfold tokensOf
  exact List.nodup_dedup _

theorem intentSimilaritySpec_eq (observed declared : String) :
    intentSimilaritySpec observed declared = intentSimilarity observed declared := by
  unfold intentSimilaritySpec intentSimilarity
  by_cases ho : tokensOf observed = []
  · simp [ho]
  · by_cases hd : tokensOf declared = []
    · simp [hd]
    · have hlo : ¬ (tokensOf observed).length = 0 := by
        simpa [List.length_eq_zero] using ho
      have hld : ¬ (tokensOf declared).length = 0 := by
        simpa [List.length_eq_zero] using hd
      rw [if_neg (by tauto), if_neg (by tauto)]
      rw [length_filter_mem_comm (tokensOf_nodup declared) (tokensOf_nodup observed)]

/-- C6: the intent-deviation risk derived by the engine coincides, for every
context, step and policy, with the specification formula: zero on an empty
observed intent, zero when the case-insensitive token-overlap similarity is
at least one quarter, one when a high-impact verb occurs as a substring of
the observed intent, and 0.65 otherwise, the similarity being the count of
declared tokens longer than 3 characters present among the observed tokens
divided by the count of declared tokens. -/
theorem intent_deviation_risk_matches_spec (context : ActionContext)
    (step : ExecutionStep) (policy : InProcessMonitorPolicy) :
    (deriveLiveBehaviorVector context step policy).intentDeviationRisk =
      intentDeviationRiskSpec step.observedIntent context.intent := by
  simp only [deriveLiveBehaviorVector, intentDeviationRiskSpec]
  rw [intentSimilaritySpec_eq]
  have hA : (toLowerCase step.observedIntent = "") ↔ (step.observedIntent = "") :=
    toLowerCase_eq_empty_iff _
  by_cases h0 : step.observedIntent = ""
  · rw [if_pos (hA.mpr h0), if_pos h0]
    norm_num [normalize]
  · rw [if_neg (fun hc => h0 (hA.mp hc)), if_neg h0]
    by_cases h1 : intentSimilarity (toLowerCase step.observedIntent)
        (toLowerCase context.intent) ≥ 1/4
    · rw [if_pos h1]
      norm_num [normalize]
    · rw [if_neg h1]
      by_cases h2 : (highImpactIntentWords.any fun word =>
          strIncludes (toLowerCase step.observedIntent).data word.data) = true
      · rw [if_pos h2]
        norm_num [normalize]
      · rw [if_neg h2]
        norm_num [normalize]

theorem ite_lt_sub_eq_max (x y : ℚ) : (if x < y then y - x else 0) = max 0 (y - x) := by
  rcases lt_or_le x y with h | h
  · rw [if_pos h, max_eq_right (by linarith)]
  · rw [if_neg (not_lt.mpr h), max_eq_left (by linarith)]

theorem conflictExcess_eq_max {m : ℚ} (hm : 0 ≤ m) (c : Option ℚ) :
    conflictExcess m c = max 0 (c.getD 0 - m) := by
  cases c with
  | none =>
    simp only [conflictExcess, Option.getD_none]
    rw [max_eq_left (by linarith)]
  | some cv =>
    simp only [conflictExcess, Option.getD_some]
    by_cases hc0 : cv = 0
    · subst hc0
      rw [if_neg (by tauto), max_eq_left (by linarith)]
    · by_cases hcm : cv > m
      · rw [if_pos ⟨hc0, hcm⟩, max_eq_right (by linarith)]
      · rw [if_neg (by tauto), max_eq_left (by linarith)]

/-- C7 counterexample: with a present conflict score of zero and a negative
maxCooperativeConflict, the code derives a cooperative-instability risk of 0
while the formula claimed for it yields one half, so the claim fails as
stated. -/
theorem cooperative_instability_claim_fails :
    (deriveLiveBehaviorVector sampleContext stepCoop polCoop).cooperativeInstabilityRisk
        = 0 ∧
      cooperativeInstabilityRiskSpec stepCoop polCoop = 1/2 := by
  constructor
  · norm_num [deriveLiveBehaviorVector, stepCoop, polCoop, conflictExcess, normalize]
  · norm_num [cooperativeInstabilityRiskSpec, stepCoop, polCoop, normalize]

/-- C7 amended: for every step and every policy whose maxCooperativeConflict
is nonnegative, the derived cooperative-instability risk is 0 without
cooperative signals and otherwise equals the mean, over the signals, of the
clamped sum of the stability deficit and the conflict excess, the conflict
score read as zero when absent. -/
theorem cooperative_instability_risk_amended (context : ActionContext)
    (step : ExecutionStep) (policy : InProcessMonitorPolicy)
    (hm : 0 ≤ policy.maxCooperativeConflict) :
    (deriveLiveBehaviorVector context step policy).cooperativeInstabilityRisk =
      cooperativeInstabilityRiskSpec step policy := by
  simp only [deriveLiveBehaviorVector, cooperativeInstabilityRiskSpec]
  by_cases hempty : step.cooperativeSignals.length = 0
  · rw [if_pos hempty, if_pos hempty]
  · rw [if_neg hempty, if_neg hempty]
    simp only [ite_lt_sub_eq_max, conflictExcess_eq_max hm]
    rw [List.length_map]
    have hne : step.cooperativeSignals.map (fun signal =>
        normalize
          (max 0 (policy.minCooperativeStability - signal.stabilityScore) +
           max 0 (signal.conflictScore.getD 0 - policy.maxCooperativeConflict))) ≠ [] := by
      simp [List.length_eq_zero] at hempty ⊢
      exact hempty
    have hunit : ∀ x ∈ step.cooperativeSignals.map (fun signal =>
        normalize
          (max 0 (policy.minCooperativeStability - signal.stabilityScore) +
           max 0 (signal.conflictScore.getD 0 - policy.maxCooperativeConflict))),
        0 ≤ x ∧ x ≤ 1 := by
      intro x hx
      obtain ⟨s, _, rfl⟩ := List.mem_map.mp hx
      exact ⟨normalize_nonneg _, normalize_le_one _⟩
    rw [show (step.cooperativeSignals.length : ℚ) =
        ((step.cooperativeSignals.map (fun signal =>
          normalize
            (max 0 (policy.minCooperativeStability - signal.stabilityScore) +
             max 0 (signal.conflictScore.getD 0 -
               policy.maxCooperativeConflict)))).length : ℚ) by rw [List.length_map]]
    exact normalize_eq_self (mean_nonneg_of_unit hunit)
      (mean_le_one_of_unit hne hunit)

/-- C7 witness for the amended claim: a policy with a zero conflict cap
satisfies the hypothesis, and the equality holds there on the sample
cooperative step. -/
theorem cooperative_instability_risk_amended_witness :
    0 ≤ polCoopOk.maxCooperativeConflict ∧
    (deriveLiveBehaviorVector sampleContext stepCoop polCoopOk).cooperativeInstabilityRisk
      = cooperativeInstabilityRiskSpec stepCoop polCoopOk := by
  have hm : (0:ℚ) ≤ polCoopOk.maxCooperativeConflict := by norm_num [polCoopOk]
  exact ⟨hm,
    cooperative_instability_risk_amended sampleContext stepCoop polCoopOk hm⟩

/-- C8: independently of the policy, a step without authorityScopeUsed
derives scopeDriftRisk 0, a step without apiCalls derives apiNoveltyRisk 0,
and a step whose total read record count is 0 derives both
sensitiveDataExposureRisk 0 and dataVolumeRisk 0. -/
theorem empty_input_zeroing (context : ActionContext) (step : ExecutionStep)
    (policy : InProcessMonitorPolicy) :
    (step.authorityScopeUsed = [] →
      (deriveLiveBehaviorVector context step policy).scopeDriftRisk = 0) ∧
    (step.apiCalls = [] →
      (deriveLiveBehaviorVector context step policy).apiNoveltyRisk = 0) ∧
    (stepReads step = 0 →
      (deriveLiveBehaviorVector context step policy).sensitiveDataExposureRisk = 0 ∧
      (deriveLiveBehaviorVector context step policy).dataVolumeRisk = 0) := by
  refine ⟨?_, ?_, fun h => ⟨?_, ?_⟩⟩
  · intro h
    simp [deriveLiveBehaviorVector, h]
  · intro h
    simp [deriveLiveBehaviorVector, h]
  · simp [deriveLiveBehaviorVector, h]
  · norm_num [deriveLiveBehaviorVector, h, normalize]

/-- C8 witness: the empty step satisfies all three hypotheses, and all four
risks are zero there. -/
theorem empty_input_zeroing_witness :
    stepEmpty.authorityScopeUsed = [] ∧ stepEmpty.apiCalls = [] ∧
    stepReads stepEmpty = 0 ∧
    (deriveLiveBehaviorVector sampleContext stepEmpty polCoop).scopeDriftRisk = 0 ∧
    (deriveLiveBehaviorVector sampleContext stepEmpty polCoop).apiNoveltyRisk = 0 ∧
    (deriveLiveBehaviorVector sampleContext stepEmpty polCoop).sensitiveDataExposureRisk
        = 0 ∧
    (deriveLiveBehaviorVector sampleContext stepEmpty polCoop).dataVolumeRisk = 0 := by
  have h := empty_input_zeroing sampleContext stepEmpty polCoop
  refine ⟨rfl, rfl, rfl, h.1 rfl, h.2.1 rfl, (h.2.2 rfl).1, (h.2.2 rfl).2⟩

theorem mapGet_mapDelete_self (m : List (String × ActionContext)) (k : String) :
    mapGet (mapDelete m k) k = none := by
  induction m with
  | nil => rfl
  | cons p t ih =>
    by_cases h : p.1 = k
    · simp only [mapDelete, ne_eq, decide_not] at ih ⊢
      simp [List.filter_cons, h, ih]
    · simp only [mapDelete, ne_eq, decide_not] at ih ⊢
      simp [mapGet, List.filter_cons, List.find?_cons, h] at ih ⊢
      try exact ih

theorem mapGet_mapSet_self (m : List (String × ActionContext)) (k : String)
    (v : ActionContext) : mapGet (mapSet m k v) k = some v := by
  unfold mapSet
  by_cases hany : (m.any fun p => decide (p.1 = k)) = true
  · rw [if_pos hany]
    induction m with
    | nil => simp at hany
    | cons p t ih =>
      by_cases h : p.1 = k
      · simp [mapGet, List.find?_cons, h]
      · have ht : (t.any fun p => decide (p.1 = k)) = true := by
          simpa [List.any_cons, h] using hany
        simpa [mapGet, List.find?_cons, h] using ih ht
  · rw [if_neg hany]
    induction m with
    | nil => simp [mapGet, List.find?_cons]
    | cons p t ih =>
      have h : ¬ p.1 = k := by
        intro hk
        exact hany (by simp [List.any_cons, hk])
      have ht : ¬ (t.any fun p => decide (p.1 = k)) = true := by
        intro hk
        exact hany (by simp [List.any_cons, hk])
      simpa [mapGet, List.cons_append, List.find?_cons, h] using ih ht

/-- C4: on every exit path of coordinate, including a pre-execution failure,
an in-process suspension, normal completion, and an error thrown by any
stage, the actionId is absent from the active-action set once coordinate
resolves. -/
theorem coordinate_removes_action_id {ε : Type} (stages : StageBehaviors ε)
    (now endNow : ℕ) (agentId intent : String) (params : Params)
    (active : List (String × ActionContext)) :
    mapGet (coordinate stages now endNow agentId intent params active).2.1
      (mkActionId now) = none := by
  simp only [coordinate]
  exact mapGet_mapDelete_self _ _

/-- C4 witness: the guarantee evaluated at pass-through stages on an empty
active set. -/
theorem coordinate_removes_action_id_witness :
    mapGet (coordinate idStages 0 1 "agent-a" "run" sampleParams []).2.1
      (mkActionId 0) = none :=
  coordinate_removes_action_id idStages 0 1 "agent-a" "run" sampleParams []

/-- C5: the actionId is derived from the wall clock alone, so two coordinate
calls observing the same Date.now reading allocate distinct contexts with
the same actionId, and registering both leaves the active map with a single
entry holding only the second context: the claimed uniqueness fails. -/
theorem action_id_collision_same_millisecond :
    (initialContext 111 "agent-a" "intent-a" sampleParams).actionId =
      (initialContext 111 "agent-b" "intent-b" sampleParams).actionId ∧
    initialContext 111 "agent-a" "intent-a" sampleParams ≠
      initialContext 111 "agent-b" "intent-b" sampleParams ∧
    mapGet
        (mapSet
          (mapSet [] (initialContext 111 "agent-a" "intent-a" sampleParams).actionId
            (initialContext 111 "agent-a" "intent-a" sampleParams))
          (initialContext 111 "agent-b" "intent-b" sampleParams).actionId
          (initialContext 111 "agent-b" "intent-b" sampleParams))
        (initialContext 111 "agent-a" "intent-a" sampleParams).actionId =
      some (initialContext 111 "agent-b" "intent-b" sampleParams) ∧
    (mapSet
        (mapSet [] (initialContext 111 "agent-a" "intent-a" sampleParams).actionId
          (initialContext 111 "agent-a" "intent-a" sampleParams))
        (initialContext 111 "agent-b" "intent-b" sampleParams).actionId
        (initialContext 111 "agent-b" "intent-b" sampleParams)).length = 1 := by
  refine ⟨by decide, by decide, by decide, by decide⟩

/-- C10: when the pre-execution stage returns a context in state
PRE_EXECUTION_FAILED, coordinate returns exactly that context, and since the
stage preserves the time stamps (the pre-execution layer is not under src
and the specification assigns endTime stamping only to the suspension and
completion paths), the result carries the allocation startTime and no
endTime. -/
theorem pre_execution_failed_leaves_end_time_unset {ε : Type}
    (stages : StageBehaviors ε) (now endNow : ℕ) (agentId intent : String)
    (params : Params) (active : List (String × ActionContext)) (c1 : ActionContext)
    (hframe : ∀ c c2, stages.pre c = Except.ok c2 →
      c2.endTime = c.endTime ∧ c2.startTime = c.startTime)
    (hpre : stages.pre (initialContext now agentId intent params) = Except.ok c1)
    (hfail : c1.status = EnforcementState.PRE_EXECUTION_FAILED) :
    (coordinate stages now endNow agentId intent params active).1 = Except.ok c1 ∧
    c1.endTime = none ∧ c1.startTime = some now := by
  obtain ⟨he, hs⟩ := hframe _ _ hpre
  refine ⟨?_, ?_, ?_⟩
  · simp [coordinate, hpre, hfail]
  · rw [he]
    rfl
  · rw [hs]
    rfl

/-- C10 witness: a pre-execution stage that only sets the failure state
satisfies the frame hypothesis, and the result of coordinate there has the
allocation startTime and no endTime. -/
theorem pre_execution_failed_leaves_end_time_unset_witness :
    (∀ c c2, preFailStages.pre c = Except.ok c2 →
      c2.endTime = c.endTime ∧ c2.startTime = c.startTime) ∧
    (coordinate preFailStages 0 1 "agent-a" "run" sampleParams []).1 =
      Except.ok { initialContext 0 "agent-a" "run" sampleParams with
        status := EnforcementState.PRE_EXECUTION_FAILED } ∧
    ({ initialContext 0 "agent-a" "run" sampleParams with
        status := EnforcementState.PRE_EXECUTION_FAILED } : ActionContext).endTime
      = none ∧
    ({ initialContext 0 "agent-a" "run" sampleParams with
        status := EnforcementState.PRE_EXECUTION_FAILED } : ActionContext).startTime
      = some 0 := by
  have hframe : ∀ c c2, preFailStages.pre c = Except.ok c2 →
      c2.endTime = c.endTime ∧ c2.startTime = c.startTime := by
    intro c c2 h
    injection h with h2
    subst h2
    exact ⟨rfl, rfl⟩
  have h := pre_execution_failed_leaves_end_time_unset preFailStages 0 1
    "agent-a" "run" sampleParams [] _ hframe rfl rfl
  exact ⟨hframe, h.1, h.2.1, h.2.2⟩

theorem auditFailCondition_bool (context : ActionContext) :
    ((context.violations.any fun v =>
        decide (v.severity = ViolationSeverity.CRITICAL)) ||
      context.params.invalidResult) = true ↔ AuditFailCondition context := by
  simp [AuditFailCondition, List.any_eq_true, Bool.or_eq_true, decide_eq_true_iff]

theorem events_split (e1 e2 a b e5 : BusEvent) :
    ∃ l1 l2 l3 : List BusEvent, [e1, e2, a, b, e5] = l1 ++ a :: (l2 ++ b :: l3) :=
  ⟨[e1, e2], [], [e5], by simp⟩

/-- C3: post-execution processing ends in AUDIT_FAILED exactly when the
context already holds a CRITICAL violation or its params carry the
invalid-result signal, and ends in AUDIT_PASSED otherwise; in the failing
case exactly one additional CRITICAL COMPLIANCE violation is appended and
published, the remediation-triggered event precedes the
remediation-completed event in the emitted trace, and the returned context
carries a non-null remediation report. -/
theorem post_execution_audit (now : ℕ) (report : RemediationReport)
    (context : ActionContext) :
    ((PostExecutionLayer.process now report context).1.status =
        EnforcementState.AUDIT_FAILED ↔ AuditFailCondition context) ∧
    (¬ AuditFailCondition context →
      (PostExecutionLayer.process now report context).1.status =
        EnforcementState.AUDIT_PASSED) ∧
    (AuditFailCondition context →
      ∃ v : Violation,
        (PostExecutionLayer.process now report context).1.violations =
          context.violations ++ [v] ∧
        v.severity = ViolationSeverity.CRITICAL ∧
        v.category = ViolationCategory.COMPLIANCE ∧
        BusEvent.violationDetected context.actionId v ∈
          (PostExecutionLayer.process now report context).2 ∧
        (∃ c : ActionContext, ∃ l1 l2 l3 : List BusEvent,
          (PostExecutionLayer.process now report context).2 =
            l1 ++ BusEvent.remediationTriggered c ::
              (l2 ++ BusEvent.remediationCompleted
                (PostExecutionLayer.process now report context).1 :: l3)) ∧
        (PostExecutionLayer.process now report context).1.remediationReport ≠
          none) := by
  by_cases hf : AuditFailCondition context
  · have hb := (auditFailCondition_bool context).mpr hf
    have hred :
        PostExecutionLayer.process now report context =
          ({ context with
              violations := context.violations ++
                [{ id := "v-post-" ++ toString now
                   timestamp := now
                   category := ViolationCategory.COMPLIANCE
                   severity := ViolationSeverity.CRITICAL
                   description := "Final result fails compliance audit."
                   sourceLayer := "PostExecutionAuditing"
                   metadata := some context.params.invalidResult }]
              status := EnforcementState.AUDIT_FAILED
              remediationReport := some report },
            [BusEvent.auditStarted context,
             BusEvent.violationDetected context.actionId
               { id := "v-post-" ++ toString now
                 timestamp := now
                 category := ViolationCategory.COMPLIANCE
                 severity := ViolationSeverity.CRITICAL
                 description := "Final result fails compliance audit."
                 sourceLayer := "PostExecutionAuditing"
                 metadata := some context.params.invalidResult },
             BusEvent.remediationTriggered
               { context with
                  violations := context.violations ++
                    [{ id := "v-post-" ++ toString now
                       timestamp := now
                       category := ViolationCategory.COMPLIANCE
                       severity := ViolationSeverity.CRITICAL
                       description := "Final result fails compliance audit."
                       sourceLayer := "PostExecutionAuditing"
                       metadata := some context.params.invalidResult }]
                  status := EnforcementState.AUDIT_FAILED },
             BusEvent.remediationCompleted
               { context with
                  violations := context.violations ++
                    [{ id := "v-post-" ++ toString now
                       timestamp := now
                       category := ViolationCategory.COMPLIANCE
                       severity := ViolationSeverity.CRITICAL
                       description := "Final result fails compliance audit."
                       sourceLayer := "PostExecutionAuditing"
                       metadata := some context.params.invalidResult }]
                  status := EnforcementState.AUDIT_FAILED
                  remediationReport := some report },
             BusEvent.auditCompleted
               { context with
                  violations := context.violations ++
                    [{ id := "v-post-" ++ toString now
                       timestamp := now
                       category := ViolationCategory.COMPLIANCE
                       severity := ViolationSeverity.CRITICAL
                       description := "Final result fails compliance audit."
                       sourceLayer := "PostExecutionAuditing"
                       metadata := some context.params.invalidResult }]
                  status := EnforcementState.AUDIT_FAILED
                  remediationReport := some report }]) := by
      simp [PostExecutionLayer.process, triggerRemediation, remediate, hb]
    rw [hred]
    refine ⟨by simp [hf], fun hn => absurd hf hn, fun _ => ?_⟩
    refine ⟨_, rfl, rfl, rfl, by simp, ?_, by simp⟩
    exact ⟨_, events_split _ _ _ _ _⟩
  · have hb : ¬ (((context.violations.any fun v =>
        decide (v.severity = ViolationSeverity.CRITICAL)) ||
          context.params.invalidResult) = true) :=
      fun h => hf ((auditFailCondition_bool context).mp h)
    have hred :
        PostExecutionLayer.process now report context =
          ({ context with status := EnforcementState.AUDIT_PASSED },
            [BusEvent.auditStarted context,
             BusEvent.auditCompleted
               { context with status := EnforcementState.AUDIT_PASSED }]) := by
      simp [PostExecutionLayer.process, hb]
    rw [hred]
    exact ⟨by simp [hf], fun _ => rfl, fun hf2 => absurd hf2 hf⟩

/-- C3 witness: a context carrying the invalid-result signal satisfies the
audit-failure condition, and the processed context indeed ends in
AUDIT_FAILED. -/
theorem post_execution_audit_witness :
    AuditFailCondition failingContext ∧
    (PostExecutionLayer.process 5 sampleReport failingContext).1.status =
      EnforcementState.AUDIT_FAILED := by
  have hf : AuditFailCondition failingContext := Or.inr rfl
  exact ⟨hf, (post_execution_audit 5 sampleReport failingContext).1.mpr hf⟩

/-- C9: a violation event for an actionId outside the active set changes
nothing and invokes no intervention; for a tracked actionId, the violation
is appended exactly when no violation with the same id is present, the
per-id uniqueness of the violations list is preserved through the
intervention layer, and the intervention layer is invoked on that same
context before the handler returns. -/
theorem violation_handler (ip : ActionContext → ActionContext)
    (active : List (String × ActionContext)) (actionId : String)
    (violation : Violation)
    (hip : ∀ c, (ip c).violations = c.violations) :
    (mapGet active actionId = none →
      handleViolationDetected ip active actionId violation = (active, [])) ∧
    (∀ context, mapGet active actionId = some context →
      ∃ c1 : ActionContext,
        (handleViolationDetected ip active actionId violation).2 = [c1] ∧
        mapGet (handleViolationDetected ip active actionId violation).1 actionId
          = some (ip c1) ∧
        ((violation.id ∈ context.violations.map fun w => w.id) →
          c1.violations = context.violations) ∧
        ((violation.id ∉ context.violations.map fun w => w.id) →
          c1.violations = context.violations ++ [violation]) ∧
        ((context.violations.map fun w => w.id).Nodup →
          ((ip c1).violations.map fun w => w.id).Nodup)) := by
  constructor
  · intro h
    simp [handleViolationDetected, h]
  · intro context h
    have hmem : (context.violations.any fun v => decide (v.id = violation.id)) = true
        ↔ violation.id ∈ context.violations.map fun w => w.id := by
      simp [List.any_eq_true, List.mem_map, decide_eq_true_iff]
    by_cases hc : (context.violations.any fun v => decide (v.id = violation.id)) = true
    · refine ⟨context, ?_, ?_, fun _ => rfl, fun hno => absurd (hmem.mp hc) hno, ?_⟩
      · simp [handleViolationDetected, h, hc]
      · simp [handleViolationDetected, h, hc, mapGet_mapSet_self]
      · intro hnd
        rw [hip]
        exact hnd
    · refine ⟨{ context with violations := context.violations ++ [violation] },
        ?_, ?_, fun hyes => absurd hyes (fun hyes2 => hc (hmem.mpr hyes2)), fun _ => rfl, ?_⟩
      · simp [handleViolationDetected, h, hc]
      · simp [handleViolationDetected, h, hc, mapGet_mapSet_self]
      · intro hnd
        rw [hip]
        have hnotmem : violation.id ∉ context.violations.map fun w => w.id :=
          fun hyes2 => hc (hmem.mpr hyes2)
        simp only [List.map_append, List.map_cons, List.map_nil]
        rw [List.nodup_append]
        refine ⟨hnd, List.nodup_singleton _, ?_⟩
        intro a ha hb
        simp at hb
        subst hb
        exact hnotmem ha

/-- C9 witness: the intervention layer modelled as the identity satisfies the
frame hypothesis, and the handler ignores an event for an unknown actionId. -/
theorem violation_handler_witness :
    (∀ c : ActionContext, (id c).violations = c.violations) ∧
    (mapGet [("act-0", sampleContext)] "missing" = none →
      handleViolationDetected id [("act-0", sampleContext)] "missing" vLow =
        ([("act-0", sampleContext)], [])) := by
  have hip : ∀ c : ActionContext, (id c).violations = c.violations := fun c => rfl
  exact ⟨hip,
    (violation_handler id [("act-0", sampleContext)] "missing" vLow hip).1⟩

end Enforcement
